import Mathlib

/-!
# Nubestock backend — verification of the bulk batch-reconciliation engine

Shallow embedding of the bulk upload handlers of `src/products/index.ts`
(`handleBulkCreateProducts`, `handleBulkCreateMaterials`), the low-stock
alert deduplication (`generateStockAlert` and the bulk low-stock phase),
and `handleStockOperation`.

The database is modelled by an oracle record that fixes, per request, the
result of each store call the handler can issue: the bulk existence lookup,
the batched insert, each individual update, the active-alert lookup and the
alert insert.  Handlers are pure functions of the validated input and the
oracle.  Concurrent `Promise.all` updates are modelled in submission order
(only per-record results, never ordering, are claimed).  Timestamps and the
payload columns that are merely copied into the store are omitted; the
fields that drive control flow (natural key, display name, stock figures)
are kept.  JS numbers are modelled by `Int` where only orderings matter and
by `Rat` in the stock-operation arithmetic.
-/

set_option autoImplicit false

namespace Nubestock

universe u

variable {α : Type u} {β : Type u}

/-! ## Small string and list helpers -/

/-- `takesL s t` is true when `t` is an initial segment of `s`. -/
def takesL : List Char → List Char → Bool
  | _, [] => true
  | [], _ :: _ => false
  | a :: as, b :: bs => a == b && takesL as bs

/-- `hasSub s t` is true when `t` occurs contiguously inside `s`. -/
def hasSub : List Char → List Char → Bool
  | [], t => takesL [] t
  | s@(_ :: rest), t => takesL s t || hasSub rest t

/-- `errorMessage.includes(pattern)` of the transaction-error classifier. -/
def strContains (s pat : String) : Bool :=
  hasSub s.data pat.data

/-- Pair every element of a list with its position, starting at `n`. -/
def withIdx : Nat → List α → List (Nat × α)
  | _, [] => []
  | n, a :: as => (n, a) :: withIdx (n + 1) as

/-- Membership in the seen-key set of the duplicate scan (JS `Set.has`,
with the set realised as the list of keys added so far). -/
def seenHas : List String → String → Bool
  | [], _ => false
  | a :: as, s => s == a || seenHas as s

/-! ## Duplicate filtering (lines 515–540 / 1720–1745)

Both bulk handlers scan the records in order, tracking the set of natural
keys already seen; a record whose key was seen before is flagged as an
in-batch duplicate.  `dupScan` is that loop; the flag accompanies each
record. -/

def dupScan (key : α → String) : List String → List α → List (Bool × α)
  | _, [] => []
  | seen, r :: rs =>
    let d := seenHas seen (key r)
    (d, r) :: dupScan key (if d then seen else key r :: seen) rs

/-- Records paired with their 0-based origin index and duplicate flag. -/
def dupFlags (key : α → String) (rs : List α) : List (Nat × Bool × α) :=
  withIdx 0 (dupScan key [] rs)

/-- `duplicateSkus` / `duplicateCodes`: the flagged records with their
origin indexes (each becomes a `Failed` outcome immediately). -/
def dupRecords (key : α → String) (rs : List α) : List (Nat × α) :=
  (dupFlags key rs).filterMap fun x => if x.2.1 then some (x.1, x.2.2) else none

/-- `validProducts` / `validMaterials`: the surviving records, paired with
their 0-based origin index. -/
def validRecords (key : α → String) (rs : List α) : List (Nat × α) :=
  (dupFlags key rs).filterMap fun x => if x.2.1 then none else some (x.1, x.2.2)

/-- `products.findIndex(p => p.key === s && !duplicates.includes(idx))`:
the recomputation of a surviving record's original index used by the
products handler (select-error path, update partition, transaction catch). -/
def actualIndex (key : α → String) (rs : List α) (s : String) : Nat :=
  (dupFlags key rs).findIdx fun x => key x.2.2 == s && !x.2.1

/-- `validProducts.findIndex(vp => vp.sku === s)`: position in the
duplicate-filtered array, used by the products insert paths. -/
def validFindIdx (key : α → String) (rs : List α) (s : String) : Nat :=
  (validRecords key rs).findIdx fun x => key x.2 == s

/-- `∃ i < j` with the same key among the first `j` records: the meaning of
the duplicate flag (proved below, used to state P2). -/
def priorAny (key : α → String) : List α → Nat → String → Bool
  | _, 0, _ => false
  | [], _ + 1, _ => false
  | r :: rs, j + 1, s => key r == s || priorAny key rs j s

/-! ## Store-call results -/

/-- Result of one individual `update ... returning('*')` call: a returned
row, an empty result, or a thrown error. -/
inductive UpdRes where
  | ok : UpdRes
  | notFound : UpdRes
  | err : String → UpdRes

/-! ## Record types -/

/-- A validated bulk product record: natural key `sku`, display name, and
the stock figures that drive the low-stock check. -/
structure PRec where
  sku : String
  pname : String
  stock : Int
  minStock : Int
deriving DecidableEq

/-- A validated bulk material record: natural key `material_code` and
display name. -/
structure MRec where
  code : String
  mname : String
deriving DecidableEq

/-- One entry of the response `errors` list (`index` is the 1-based value
placed in the body). -/
structure ErrEntry where
  index : Nat
  key : String
  name : String
  error : String
deriving DecidableEq

/-- The `data` object of a bulk response body (the per-row `records` echo
is omitted; only the counts and error descriptors are claimed about). -/
structure BulkData where
  total : Nat
  created : Nat
  updated : Nat
  failed : Nat
  errors : List ErrEntry
deriving DecidableEq

/-- A bulk HTTP response: status code, `success` flag, and the `data`
object when the handler builds one (the bare 500 bodies carry none). -/
structure BulkResponse where
  status : Nat
  success : Bool
  data : Option BulkData
deriving DecidableEq

/-- Errors list of a response, empty when the body carries no data. -/
def respErrors (r : BulkResponse) : List ErrEntry :=
  match r.data with
  | some d => d.errors
  | none => []

/-! ## The concurrent update phase (lines 745–801 / 1850–1911)

One update statement per record, each wrapped in its own try/catch; record
`k`'s outcome is a function of the store's answer to call `k` alone. -/

/-- Outcome of one record of the update phase. -/
inductive UpdOutcome (γ : Type u) where
  | updated : Nat → γ → UpdOutcome γ
  | failed : Nat → γ → String → UpdOutcome γ
deriving DecidableEq

/-- Per-record translation of the store answer (the `notFound` message
differs between the products and materials handlers, hence `nfMsg`). -/
def updOutcome (nfMsg : String) (idx : Nat) (r : α) : UpdRes → UpdOutcome α
  | .ok => .updated idx r
  | .notFound => .failed idx r ("UPDATE Error: " ++ nfMsg)
  | .err m => .failed idx r ("UPDATE Error: " ++ m)

/-- The `Promise.all` of individually-caught updates; `f k` is the store's
answer to the `k`-th update call. -/
def runUpdates (nfMsg : String) (upds : List (Nat × α)) (f : Nat → UpdRes) :
    List (UpdOutcome α) :=
  (withIdx 0 upds).map fun x => updOutcome nfMsg x.2.1 x.2.2 (f x.1)

/-- The `results.updated` pushes of the update phase. -/
def updatedOf (l : List (UpdOutcome α)) : List (Nat × α) :=
  l.filterMap fun
    | .updated i r => some (i, r)
    | .failed _ _ _ => none

/-- The `results.failed` pushes of the update phase. -/
def updFailedOf (l : List (UpdOutcome α)) : List (Nat × α × String) :=
  l.filterMap fun
    | .updated _ _ => none
    | .failed i r m => some (i, r, m)

/-! ## Low-stock alerts (lines 7–42, 803–845) -/

/-- One row of `nubestock.tb_mae_alert` (the generated title/message text
is not claimed about and is omitted). -/
structure AlertRow where
  etype : String
  eid : Nat
  atype : String
  active : Bool
deriving DecidableEq

/-- The `where` clauses of the existing-alert lookup of
`generateStockAlert` applied to one row. -/
def isActiveLowStock (pid : Nat) (a : AlertRow) : Bool :=
  a.etype == "product" && a.eid == pid && a.atype == "stock_low" && a.active

/-- `.first()` of the existing-alert lookup: does any row match? -/
def hasActiveAlert (st : List AlertRow) (pid : Nat) : Bool :=
  st.any (isActiveLowStock pid)

/-- Number of active low-stock alert rows for one product. -/
def countActive (st : List AlertRow) (pid : Nat) : Nat :=
  (st.filter (isActiveLowStock pid)).length

/-- `generateStockAlert` (lines 7–42): look up an active alert, return if
one exists, otherwise insert one row.  Every store failure is caught and
logged, so the function always returns; `insertOk` says whether the insert
succeeded (a failed insert leaves the store unchanged). -/
def generateStockAlert (insertOk : Bool) (pid : Nat) (st : List AlertRow) :
    List AlertRow :=
  if hasActiveAlert st pid then st
  else if insertOk then st ++ [⟨"product", pid, "stock_low", true⟩] else st

/-- The bulk low-stock phase's existing-alert query (lines 811–816)
evaluated against an alert store: the `entity_id`s among `ids` holding an
active `stock_low` alert. -/
def activeAlertIds (st : List AlertRow) (ids : List Nat) : List Nat :=
  (st.filter fun a =>
    a.etype == "product" && ids.contains a.eid && a.atype == "stock_low" && a.active).map
    (fun a => a.eid)

/-! ## The products bulk pipeline (lines 497–936) -/

/-- The per-request database oracle of the products bulk handler. -/
structure ProdOracle where
  /-- Result of the single `whereIn('sku', ...)` existence lookup. -/
  selectRes : Except String (List (String × Nat))
  /-- `none` when the batched insert succeeds, the thrown message else. -/
  insertErr : Option String
  /-- First generated id of the batched insert (rows get consecutive ids). -/
  idBase : Nat
  /-- Store answer to the `k`-th individual update call. -/
  updateRes : Nat → UpdRes
  /-- Result of the alert-deduplication lookup inside the transaction. -/
  alertSelectRes : Except String (List Nat)
  /-- `none` when the batched alert insert succeeds (failures are logged
  and swallowed). -/
  alertInsertErr : Option String

/-- Error text of line 534. -/
def dupMsgP : String := "SKU duplicado en el mismo lote"

/-- Error text of line 1739. -/
def dupMsgM : String := "Código de material duplicado en el mismo lote"

/-- `notFound` update message of line 770. -/
def nfMsgP : String := "Producto no encontrado o no se pudo actualizar"

/-- `notFound` update message of line 1881. -/
def nfMsgM : String := "Material no encontrado o no se pudo actualizar"

/-- An entry of `productsToUpdate`: existing row id, recomputed original
index, and the record (kept for error reporting). -/
structure UpdEntry where
  id : Nat
  index : Nat
  item : PRec
deriving DecidableEq

/-- An entry of `lowStockProducts`: the row id when already known (update
case), `none` until the insert back-fills it (insert case). -/
structure LowStockEntry where
  pid : Option Nat
  item : PRec
deriving DecidableEq

/-- `new Map(...)`/`Map.set` lookup: the last binding of a key wins. -/
def lookupLast (m : List (String × Nat)) (s : String) : Option Nat :=
  match m with
  | [] => none
  | (k, v) :: rest =>
    match lookupLast rest s with
    | some v2 => some v2
    | none => if k == s then some v else none

/-- Partition of the surviving products into insert set, update set and
low-stock candidates (lines 627–681). -/
def planProducts (ps : List PRec) (found : List (String × Nat)) :
    List PRec × List UpdEntry × List LowStockEntry :=
  (validRecords PRec.sku ps).foldl
    (fun acc x =>
      let p := x.2
      let aIdx := actualIndex PRec.sku ps p.sku
      match lookupLast found p.sku with
      | some i =>
        let low2 := if p.stock ≤ p.minStock then acc.2.2 ++ [⟨some i, p⟩] else acc.2.2
        (acc.1, acc.2.1 ++ [⟨i, aIdx, p⟩], low2)
      | none =>
        let low2 := if p.stock ≤ p.minStock then acc.2.2 ++ [⟨none, p⟩] else acc.2.2
        (acc.1 ++ [p], acc.2.1, low2))
    ([], [], [])

/-- Back-fill of one generated id into the first id-less low-stock entry
with the same sku (lines 717–723). -/
def backfill (low : List LowStockEntry) (s : String) (newId : Nat) :
    List LowStockEntry :=
  match low with
  | [] => []
  | e :: rest =>
    if e.item.sku == s && e.pid == none then { e with pid := some newId } :: rest
    else e :: backfill rest s newId

/-- Back-fill of all generated ids, in insertion order. -/
def backfillAll (low : List LowStockEntry) (inserted : List (Nat × PRec)) :
    List LowStockEntry :=
  inserted.foldl (fun l x => backfill l x.2.sku x.1) low

/-- The bulk low-stock alert phase (lines 803–845): keep the candidates
whose id is known, look up which already carry an active alert, and insert
rows for the rest.  Returns the transaction error when the lookup throws
(that `await trx(...)` is outside the inner try/catch) and the entity ids
actually inserted.  A failing alert insert is swallowed. -/
def alertPhase (low : List LowStockEntry) (selRes : Except String (List Nat))
    (insErr : Option String) : Option String × List Nat :=
  let withId := low.filterMap fun e =>
    match e.pid with
    | some i => some (i, e.item)
    | none => none
  if withId.isEmpty then (none, [])
  else
    match selRes with
    | .error e => (some e, [])
    | .ok ids =>
      let toCreate := withId.filter fun x => !ids.contains x.1
      if toCreate.isEmpty then (none, [])
      else
        match insErr with
        | none => (none, toCreate.map fun x => x.1)
        | some _ => (none, [])

/-- What the transaction callback leaves in the `results` accumulator:
`successful` and `updated` entries, the `failed` entries pushed inside the
transaction, the error that escaped the callback (if any), and the alert
rows inserted. -/
structure TxOut where
  successful : List (Nat × PRec)
  updated : List (Nat × PRec)
  failedAdds : List (Nat × PRec × String)
  txErr : Option String
  alerts : List Nat

/-- The transaction callback of the products handler (lines 621–846).  On
a batched-insert failure every insert-set member is pushed to `failed`
with the position `validProducts.findIndex` yields, and the rethrown error
aborts the callback (updates and alerts never run).  Otherwise inserted
rows are recorded under their `validProducts` position, updates run
individually caught, and the alert phase closes the transaction. -/
def txPhase (ps : List PRec) (o : ProdOracle) (found : List (String × Nat)) :
    TxOut :=
  let plan := planProducts ps found
  let toInsert := plan.1
  let toUpdate := plan.2.1
  let low := plan.2.2
  match toInsert.isEmpty, o.insertErr with
  | false, some e =>
    { successful := []
      updated := []
      failedAdds := toInsert.map fun p =>
        (validFindIdx PRec.sku ps p.sku, p, "INSERT Error: " ++ e)
      txErr := some ("INSERT Error: " ++ e)
      alerts := [] }
  | isEmp, _ =>
    let inserted : List (Nat × PRec) := if isEmp then [] else withIdx o.idBase toInsert
    let successful := inserted.map fun x => (validFindIdx PRec.sku ps x.2.sku, x.2)
    let low2 := backfillAll low inserted
    let outs := runUpdates nfMsgP (toUpdate.map fun u => (u.index, u.item)) o.updateRes
    let ap := alertPhase low2 o.alertSelectRes o.alertInsertErr
    { successful := successful
      updated := updatedOf outs
      failedAdds := updFailedOf outs
      txErr := ap.1
      alerts := ap.2 }

/-- The transaction-error classifier (lines 854–862). -/
def classifyTxError (msg : String) : String :=
  if strContains msg "INSERT" || strContains msg "insert" then "INSERT Error"
  else if strContains msg "UPDATE" || strContains msg "update" then "UPDATE Error"
  else if strContains msg "SELECT" || strContains msg "select" then "SELECT Error"
  else "TRANSACTION Error"

/-- The transaction catch (lines 847–881): when the transaction failed,
every surviving record whose recomputed index appears in neither
`successful` nor `updated` is pushed to `failed` once more. -/
def txCatch (ps : List PRec) (t : TxOut) : List (Nat × PRec × String) :=
  match t.txErr with
  | none => []
  | some e =>
    let et := classifyTxError e
    (validRecords PRec.sku ps).filterMap fun x =>
      let aIdx := actualIndex PRec.sku ps x.2.sku
      if t.successful.any (fun s => s.1 == aIdx) || t.updated.any (fun u => u.1 == aIdx)
      then none
      else some (aIdx, x.2, et ++ ": " ++ e)

/-- Status selection of lines 907–925. -/
def statusFor (failedN processedN totalN : Nat) : Nat :=
  if 0 < failedN ∧ 0 < processedN then 207
  else if failedN = totalN then 400
  else 201

/-- The response `errors` mapping (`index: r.index + 1`). -/
def mkErrEntries (keyF nameF : α → String) (l : List (Nat × α × String)) :
    List ErrEntry :=
  l.map fun x => ⟨x.1 + 1, keyF x.2.1, nameF x.2.1, x.2.2⟩

/-- Response assembly of the products handler (lines 883–925). -/
def finishProducts (totalN : Nat) (succ upd : List (Nat × PRec))
    (failedAll : List (Nat × PRec × String)) : BulkResponse :=
  let c := succ.length
  let u := upd.length
  let f := failedAll.length
  { status := statusFor f (c + u) totalN
    success := f = 0
    data := some ⟨totalN, c, u, f, mkErrEntries PRec.sku PRec.pname failedAll⟩ }

/-- The select-error early return (lines 579–617): every surviving record
is pushed to `failed` with the `SELECT Error` message and the handler
answers with HTTP 500 (the body still carries the full counts). -/
def selectErrRespP (ps : List PRec) (e : String) : BulkResponse :=
  let dupFails := (dupRecords PRec.sku ps).map fun x => (x.1, x.2, dupMsgP)
  let selFails := (validRecords PRec.sku ps).map fun x =>
    (actualIndex PRec.sku ps x.2.sku, x.2, "SELECT Error: " ++ e)
  let failedAll := dupFails ++ selFails
  { status := 500
    success := false
    data := some ⟨ps.length, 0, 0, failedAll.length,
      mkErrEntries PRec.sku PRec.pname failedAll⟩ }

/-- `handleBulkCreateProducts` from the validated record list on: the
duplicate scan, the all-duplicates early return (400), the existence
lookup (500 on failure), the transaction with its catch, and the final
status selection.  Also returns the entity ids the alert phase inserted. -/
def runProducts (ps : List PRec) (o : ProdOracle) : BulkResponse × List Nat :=
  let dupFails := (dupRecords PRec.sku ps).map fun x => (x.1, x.2, dupMsgP)
  if (validRecords PRec.sku ps).isEmpty then
    ({ status := 400
       success := false
       data := some ⟨ps.length, 0, 0, dupFails.length,
         mkErrEntries PRec.sku PRec.pname dupFails⟩ }, [])
  else
    match o.selectRes with
    | .error e => (selectErrRespP ps e, [])
    | .ok found =>
      let t := txPhase ps o found
      let failedAll := dupFails ++ t.failedAdds ++ txCatch ps t
      (finishProducts ps.length t.successful t.updated failedAll, t.alerts)

/-! ## The materials bulk pipeline (lines 1555–1952) -/

/-- The per-request database oracle of the materials bulk handler. -/
structure MatOracle where
  /-- Result of the `whereIn('material_code', ...)` lookup (inside the
  transaction; a failure rejects the whole transaction). -/
  selectRes : Except String (List (String × Nat))
  /-- `none` when the batched insert succeeds, the thrown message else
  (caught in place, not rethrown). -/
  insertErr : Option String
  /-- Store answer to the `k`-th individual update call. -/
  updateRes : Nat → UpdRes

/-- Partition of the surviving materials into create set (with original
index) and update set (lines 1785–1808). -/
def planMaterials (ms : List MRec) (found : List (String × Nat)) :
    List (Nat × MRec) × List (Nat × Nat × MRec) :=
  (validRecords MRec.code ms).foldl
    (fun acc x =>
      let oIdx := actualIndex MRec.code ms x.2.code
      match lookupLast found x.2.code with
      | some i => (acc.1, acc.2 ++ [(i, oIdx, x.2)])
      | none => (acc.1 ++ [(oIdx, x.2)], acc.2))
    ([], [])

/-- Response assembly of the materials handler (lines 1914–1940): status
is `failed === 0 ? 201 : 207`. -/
def finishMaterials (totalN cN uN : Nat) (failedAll : List (Nat × MRec × String)) :
    BulkResponse :=
  { status := if failedAll.length = 0 then 201 else 207
    success := failedAll.length = 0
    data := some ⟨totalN, cN, uN, failedAll.length,
      mkErrEntries MRec.code MRec.mname failedAll⟩ }

/-- `handleBulkCreateMaterials` from the validated record list on: the
duplicate scan, the all-duplicates early return (400), the transaction
(whose existence lookup failing rejects it, reaching the outer catch and
the bare 500 body), the caught batched insert, the individually-caught
updates, and the final `failed === 0 ? 201 : 207` status. -/
def runMaterials (ms : List MRec) (o : MatOracle) : BulkResponse :=
  let dupFails := (dupRecords MRec.code ms).map fun x => (x.1, x.2, dupMsgM)
  if (validRecords MRec.code ms).isEmpty then
    { status := 400
      success := false
      data := some ⟨ms.length, 0, 0, dupFails.length,
        mkErrEntries MRec.code MRec.mname dupFails⟩ }
  else
    match o.selectRes with
    | .error _ => { status := 500, success := false, data := none }
    | .ok found =>
      let plan := planMaterials ms found
      let createFails :=
        match plan.1.isEmpty, o.insertErr with
        | false, some e => plan.1.map fun x => (x.1, x.2, "CREATE Error: " ++ e)
        | _, _ => ([] : List (Nat × MRec × String))
      let createdOk :=
        match plan.1.isEmpty, o.insertErr with
        | false, none => plan.1
        | _, _ => ([] : List (Nat × MRec))
      let outs := runUpdates nfMsgM (plan.2.map fun u => (u.2.1, u.2.2)) o.updateRes
      let failedAll := dupFails ++ createFails ++ updFailedOf outs
      finishMaterials ms.length createdOk.length (updatedOf outs).length failedAll

/-! ## Stock operations (lines 2337–2462) -/

/-- A row of `nubestock.tb_mae_final_product` as the stock-operation
handler reads it. -/
structure ProductRow where
  id : Nat
  sku : String
  pname : String
  stock : Rat
  minStock : Rat
  price : Rat
  active : Bool
deriving DecidableEq

/-- A row of `nubestock.tb_ope_transaction`. -/
structure TxRow where
  pid : Nat
  txType : String
  qty : Rat
  total : Rat
deriving DecidableEq

/-- The store state the stock-operation handler touches. -/
structure InvState where
  products : List ProductRow
  txs : List TxRow
  alerts : List AlertRow
deriving DecidableEq

/-- The `.where(id).where('isactive', true).first()` product lookup. -/
def findActive (rows : List ProductRow) (pid : Nat) : Option ProductRow :=
  rows.find? fun r => r.id == pid && r.active

/-- `handleStockOperation` (lines 2337–2462): look the product up (404
when absent), compute the new stock, reject an `out` operation that would
drive it negative with 400 and no write, otherwise update the row, insert
the transaction row and run the low-stock alert check. -/
def handleStockOperation (st : InvState) (pid : Nat) (isIn : Bool) (qty : Rat)
    (alertOk : Bool) : Nat × InvState :=
  match findActive st.products pid with
  | none => (404, st)
  | some p =>
    let newStock := if isIn then p.stock + qty else p.stock - qty
    if !isIn ∧ newStock < 0 then (400, st)
    else
      let products2 := st.products.map fun r =>
        if r.id == pid then { r with stock := newStock } else r
      let tx : TxRow := ⟨pid, if isIn then "stock_in" else "stock_out", qty,
        qty * p.price⟩
      let alerts2 :=
        if newStock ≤ p.minStock then generateStockAlert alertOk pid st.alerts
        else st.alerts
      (200, { products := products2, txs := st.txs ++ [tx], alerts := alerts2 })

/-! ## Request-body normalization (lines 1567–1642 vs 479) -/

/-- Shapes a bulk request body can take.  `str` carries the JSON parse
result (`none` when the text is not valid JSON); `obj` carries the list
found under the `materials` and `data` keys when present-and-an-array. -/
inductive Body (γ : Type u) where
  | arr : List γ → Body γ
  | str : Option (Body γ) → Body γ
  | obj : Option (List γ) → Option (List γ) → Body γ
  | nul : Body γ
  | other : Body γ

/-- The materials handler's body normalization (lines 1567–1642): parse a
string body, then accept an array, or unwrap `body.materials` or
`body.data`, rejecting every other shape with a 400 message. -/
def normalizeMaterialsBody (b : Body α) : Except String (List α) :=
  let b1 : Except String (Body α) :=
    match b with
    | .str none => .error "Error al parsear el cuerpo de la petición"
    | .str (some inner) => .ok inner
    | x => .ok x
  match b1 with
  | .error e => .error e
  | .ok (.arr xs) => .ok xs
  | .ok (.obj (some ms) _) => .ok ms
  | .ok (.obj none (some ds)) => .ok ds
  | .ok (.obj none none) => .error "El cuerpo de la petición debe ser un array de materiales"
  | .ok (.str _) => .error "El cuerpo de la petición debe ser un array de materiales"
  | .ok .nul => .error "El cuerpo de la petición debe ser un array de materiales"
  | .ok .other => .error "El cuerpo de la petición debe ser un array de materiales"

/-- The products handler applies its array schema to `req.body` directly
(line 479), with no unwrapping step of its own.  This models the shape
acceptance of that external validation: the schema library accepts an
actual array, converts a string that parses to a JSON array, and fails
every other shape (an object is not an array and is never unwrapped). -/
def productsBodyAccepted (b : Body α) : Bool :=
  match b with
  | .arr _ => true
  | .str (some (.arr _)) => true
  | _ => false

/-! ## Lemmas: positions, the duplicate scan, partition sizes -/

theorem withIdx_length (l : List α) (n : Nat) : (withIdx n l).length = l.length := by
  induction l generalizing n with
  | nil => rfl
  | cons a as ih => simp [withIdx, ih]

theorem withIdx_get? (l : List α) (n j : Nat) :
    (withIdx n l).get? j = (l.get? j).map fun a => (n + j, a) := by
  induction l generalizing n j with
  | nil => simp [withIdx]
  | cons a as ih =>
    cases j with
    | zero => simp [withIdx]
    | succ j =>
      simp only [withIdx, List.get?_cons_succ, ih (n + 1) j]
      have : n + 1 + j = n + (j + 1) := by omega
      rw [this]

theorem mem_withIdx_zero (l : List α) (j : Nat) (a : α) :
    (j, a) ∈ withIdx 0 l ↔ l.get? j = some a := by
  rw [List.mem_iff_get?]
  constructor
  · rintro ⟨k, hk⟩
    rw [withIdx_get?] at hk
    cases hl : l.get? k with
    | none => rw [hl] at hk; simp at hk
    | some b =>
      rw [hl] at hk
      simp only [Option.map_some', Option.some.injEq, Prod.mk.injEq, Nat.zero_add] at hk
      obtain ⟨rfl, rfl⟩ := hk
      exact hl
  · intro h
    exact ⟨j, by rw [withIdx_get?, h]; simp⟩

theorem dupScan_length (key : α → String) (seen : List String) (rs : List α) :
    (dupScan key seen rs).length = rs.length := by
  induction rs generalizing seen with
  | nil => rfl
  | cons r rest ih => simp [dupScan, ih]

theorem seenHas_cons (a : String) (as : List String) (s : String) :
    seenHas (a :: as) s = (s == a || seenHas as s) := rfl

theorem dupScan_congr (key : α → String) (rs : List α) (s1 s2 : List String)
    (h : ∀ s, seenHas s1 s = seenHas s2 s) : dupScan key s1 rs = dupScan key s2 rs := by
  induction rs generalizing s1 s2 with
  | nil => rfl
  | cons r rest ih =>
    simp only [dupScan, h (key r)]
    refine congrArg _ (ih _ _ ?_)
    intro s
    by_cases hd : seenHas s2 (key r) = true
    · simp only [hd, if_true]
      exact h s
    · simp [hd, seenHas_cons, h s]

theorem dupScan_get? (key : α → String) (rs : List α) (seen : List String) (j : Nat) :
    (dupScan key seen rs).get? j =
      (rs.get? j).map fun r => (seenHas seen (key r) || priorAny key rs j (key r), r) := by
  induction rs generalizing seen j with
  | nil => simp [dupScan]
  | cons r rest ih =>
    cases j with
    | zero => simp [dupScan, priorAny]
    | succ j =>
      have hcongr : dupScan key (if seenHas seen (key r) then seen else key r :: seen) rest =
          dupScan key (key r :: seen) rest := by
        apply dupScan_congr
        intro s
        by_cases hd : seenHas seen (key r) = true
        · simp only [hd, if_true, seenHas_cons]
          by_cases hs : s = key r
          · subst hs; simp [hd]
          · simp [hs, beq_iff_eq]
        · simp [hd]
      simp only [dupScan, List.get?_cons_succ, hcongr, ih (key r :: seen) j]
      cases hq : rest.get? j with
      | none => simp
      | some q =>
        simp only [Option.map_some', Option.some.injEq, Prod.mk.injEq, and_true]
        show (seenHas (key r :: seen) (key q) || priorAny key rest j (key q)) =
          (seenHas seen (key q) || priorAny key (r :: rest) (j + 1) (key q))
        simp only [seenHas_cons, priorAny]
        by_cases hs : key q = key r
        · simp [hs, beq_iff_eq]
        · have h1 : (key q == key r) = false := beq_eq_false_iff_ne.mpr hs
          have h2 : (key r == key q) = false :=
            beq_eq_false_iff_ne.mpr fun hh => hs hh.symm
          simp [h1, h2]

theorem dupFlags_get? (key : α → String) (rs : List α) (j : Nat) :
    (dupFlags key rs).get? j =
      (rs.get? j).map fun r => (j, priorAny key rs j (key r), r) := by
  rw [dupFlags, withIdx_get?, dupScan_get?]
  cases hq : rs.get? j <;> simp [seenHas]

theorem mem_dupFlags (key : α → String) (rs : List α) (j : Nat) (d : Bool) (r : α) :
    (j, d, r) ∈ dupFlags key rs ↔
      rs.get? j = some r ∧ d = priorAny key rs j (key r) := by
  rw [List.mem_iff_get?]
  constructor
  · rintro ⟨k, hk⟩
    rw [dupFlags_get?] at hk
    cases hl : rs.get? k with
    | none => rw [hl] at hk; simp at hk
    | some b =>
      rw [hl] at hk
      simp only [Option.map_some', Option.some.injEq, Prod.mk.injEq] at hk
      obtain ⟨rfl, rfl, rfl⟩ := hk
      exact ⟨hl, rfl⟩
  · rintro ⟨h1, rfl⟩
    exact ⟨j, by rw [dupFlags_get?, h1]; simp⟩

theorem priorAny_eq_true (key : α → String) (rs : List α) (i j : Nat) (r : α)
    (hij : i < j) (hi : rs.get? i = some r) :
    priorAny key rs j (key r) = true := by
  induction rs generalizing i j with
  | nil => simp at hi
  | cons a rest ih =>
    cases j with
    | zero => omega
    | succ j =>
      cases i with
      | zero =>
        simp only [List.get?_cons_zero, Option.some.injEq] at hi
        subst hi
        simp [priorAny]
      | succ i =>
        simp only [List.get?_cons_succ] at hi
        simp [priorAny, ih i j (by omega) hi]

theorem priorAny_eq_false (key : α → String) (rs : List α) (j : Nat) (s : String)
    (h : ∀ k t, k < j → rs.get? k = some t → key t ≠ s) :
    priorAny key rs j s = false := by
  induction rs generalizing j with
  | nil => cases j <;> simp [priorAny]
  | cons a rest ih =>
    cases j with
    | zero => simp [priorAny]
    | succ j =>
      have ha : (key a == s) = false :=
        beq_eq_false_iff_ne.mpr (h 0 a (by omega) rfl)
      simp only [priorAny, ha, Bool.false_or]
      exact ih j fun k t hk hget => h (k + 1) t (by omega) hget

theorem mem_dupRecords (key : α → String) (rs : List α) (j : Nat) (r : α) :
    (j, r) ∈ dupRecords key rs ↔
      rs.get? j = some r ∧ priorAny key rs j (key r) = true := by
  rw [dupRecords, List.mem_filterMap]
  constructor
  · rintro ⟨⟨k, d, b⟩, hmem, hf⟩
    cases d with
    | false => simp at hf
    | true =>
      simp only [if_true] at hf
      have hk : k = j := congrArg Prod.fst (Option.some.inj hf)
      have hb : b = r := congrArg Prod.snd (Option.some.inj hf)
      have h3 := (mem_dupFlags key rs k true b).mp hmem
      rw [hk, hb] at h3
      exact ⟨h3.1, h3.2.symm⟩
  · rintro ⟨h1, h2⟩
    refine ⟨(j, true, r), (mem_dupFlags key rs j true r).mpr ⟨h1, h2.symm⟩, by simp⟩

theorem mem_validRecords (key : α → String) (rs : List α) (j : Nat) (r : α) :
    (j, r) ∈ validRecords key rs ↔
      rs.get? j = some r ∧ priorAny key rs j (key r) = false := by
  rw [validRecords, List.mem_filterMap]
  constructor
  · rintro ⟨⟨k, d, b⟩, hmem, hf⟩
    cases d with
    | true => simp at hf
    | false =>
      simp only [if_false] at hf
      have hk : k = j := congrArg Prod.fst (Option.some.inj hf)
      have hb : b = r := congrArg Prod.snd (Option.some.inj hf)
      have h3 := (mem_dupFlags key rs k false b).mp hmem
      rw [hk, hb] at h3
      exact ⟨h3.1, h3.2.symm⟩
  · rintro ⟨h1, h2⟩
    refine ⟨(j, false, r), (mem_dupFlags key rs j false r).mpr ⟨h1, h2.symm⟩, by simp⟩

theorem dupFlags_length (key : α → String) (rs : List α) :
    (dupFlags key rs).length = rs.length := by
  rw [dupFlags, withIdx_length, dupScan_length]

theorem dup_valid_length (key : α → String) (rs : List α) :
    (dupRecords key rs).length + (validRecords key rs).length = rs.length := by
  rw [← dupFlags_length key rs, dupRecords, validRecords]
  induction dupFlags key rs with
  | nil => rfl
  | cons x l ih =>
    obtain ⟨k, d, b⟩ := x
    cases d <;> simp [List.filterMap_cons] <;> omega

theorem validRecords_nil_of_nil (key : α → String) (rs : List α) (h : rs = []) :
    validRecords key rs = [] := by
  subst h; rfl

/-! ## C4: duplicate filtering is first-occurrence-wins -/

/-- **C4.**  In every batch, a record at position `j` whose natural key
already occurred at an earlier position `i` is flagged as an in-batch
duplicate — it enters `duplicateSkus`/`duplicateCodes` (becoming a
`Failed` outcome with the duplicate-key error) and is excluded from the
surviving list that all further processing works on; and a record that is
the first occurrence of its key always survives the filter and is
processed normally (routed to the insert or update set).  The scan is a
single in-order pass, so first occurrence wins. -/
theorem duplicate_first_wins (key : α → String) (rs : List α)
    (i j : Nat) (r q : α) (hij : i < j)
    (hi : rs.get? i = some r) (hj : rs.get? j = some q) (hkey : key r = key q) :
    ((j, q) ∈ dupRecords key rs ∧ ∀ x ∈ validRecords key rs, x.1 ≠ j) ∧
    ((∀ k t, k < i → rs.get? k = some t → key t ≠ key r) →
      (i, r) ∈ validRecords key rs) := by
  have hdup : priorAny key rs j (key q) = true := by
    rw [← hkey]
    exact priorAny_eq_true key rs i j r hij hi
  constructor
  · refine ⟨(mem_dupRecords key rs j q).mpr ⟨hj, hdup⟩, ?_⟩
    rintro ⟨a, b⟩ hx hxj
    have hxj2 : a = j := hxj
    rw [hxj2] at hx
    obtain ⟨hget, hfalse⟩ := (mem_validRecords key rs j b).mp hx
    have hbq : b = q := Option.some.inj (hget.symm.trans hj)
    rw [hbq, hdup] at hfalse
    simp at hfalse
  · intro hfirst
    exact (mem_validRecords key rs i r).mpr
      ⟨hi, priorAny_eq_false key rs i (key r) hfirst⟩

/-- Witness for C4 at the batch `["a", "a"]` (keys are the records): the
second `"a"` is flagged duplicate and excluded, the first survives. -/
theorem duplicate_first_wins_witness :
    (((1 : Nat), "a") ∈ dupRecords (fun s : String => s) ["a", "a"] ∧
      ∀ x ∈ validRecords (fun s : String => s) ["a", "a"], x.1 ≠ 1) ∧
    ((0 : Nat), "a") ∈ validRecords (fun s : String => s) ["a", "a"] := by
  have h := duplicate_first_wins (fun s : String => s) ["a", "a"] 0 1 "a" "a"
    (by omega) rfl rfl rfl
  exact ⟨h.1, h.2 fun k t hk _ => absurd hk (Nat.not_lt_zero k)⟩

/-! ## C1: the status-code law -/

theorem statusFor_law (f c u t : Nat) (hsum : c + u + f = t) (ht : 0 < t) :
    (f = 0 → statusFor f (c + u) t = 201) ∧
    (f = t → statusFor f (c + u) t = 400) ∧
    (0 < f → f < t → statusFor f (c + u) t = 207) := by
  unfold statusFor
  refine ⟨?_, ?_, ?_⟩
  · intro h
    subst h
    rw [if_neg (by omega), if_neg (by omega)]
  · intro h
    rw [if_neg (by omega), if_pos h]
  · intro h1 h2
    rw [if_pos ⟨h1, by omega⟩]

theorem finishProducts_data (totalN : Nat) (succ upd : List (Nat × PRec))
    (failedAll : List (Nat × PRec × String)) (d : BulkData)
    (hd : (finishProducts totalN succ upd failedAll).data = some d) :
    d.total = totalN ∧ d.created = succ.length ∧ d.updated = upd.length ∧
      d.failed = failedAll.length ∧
      (finishProducts totalN succ upd failedAll).status =
        statusFor d.failed (d.created + d.updated) d.total := by
  have hd2 : some (⟨totalN, succ.length, upd.length, failedAll.length,
      mkErrEntries PRec.sku PRec.pname failedAll⟩ : BulkData) = some d := hd
  obtain rfl := Option.some.inj hd2
  exact ⟨rfl, rfl, rfl, rfl, rfl⟩

theorem finishMaterials_data (totalN cN uN : Nat)
    (failedAll : List (Nat × MRec × String)) (d : BulkData)
    (hd : (finishMaterials totalN cN uN failedAll).data = some d) :
    d.total = totalN ∧ d.created = cN ∧ d.updated = uN ∧
      d.failed = failedAll.length ∧
      (finishMaterials totalN cN uN failedAll).status =
        if d.failed = 0 then 201 else 207 := by
  have hd2 : some (⟨totalN, cN, uN, failedAll.length,
      mkErrEntries MRec.code MRec.mname failedAll⟩ : BulkData) = some d := hd
  obtain rfl := Option.some.inj hd2
  exact ⟨rfl, rfl, rfl, rfl, rfl⟩

theorem runProducts_reaches_finish (ps : List PRec) (o : ProdOracle)
    (found : List (String × Nat)) (hsel : o.selectRes = Except.ok found)
    (hv : (validRecords PRec.sku ps).isEmpty = false) :
    ∃ succ upd fa, (runProducts ps o).1 = finishProducts ps.length succ upd fa := by
  unfold runProducts
  rw [hv, hsel]
  exact ⟨_, _, _, rfl⟩

theorem runMaterials_reaches_finish (ms : List MRec) (o : MatOracle)
    (found : List (String × Nat)) (hsel : o.selectRes = Except.ok found)
    (hv : (validRecords MRec.code ms).isEmpty = false) :
    ∃ cN uN fa, runMaterials ms o = finishMaterials ms.length cN uN fa := by
  unfold runMaterials
  rw [hv, hsel]
  exact ⟨_, _, _, rfl⟩

theorem length_pos_of_valid (key : α → String) (rs : List α)
    (hv : (validRecords key rs).isEmpty = false) : 0 < rs.length := by
  rcases rs with _ | ⟨r, rest⟩
  · exact absurd hv (by simp [validRecords, dupFlags, dupScan, withIdx])
  · simp

/-- **C1 (amended).**  For bulk requests that pass duplicate filtering
with at least one survivor and whose existence lookup succeeds: at the
products endpoint, whenever the returned counts satisfy
`created + updated + failed = total`, the status follows the law
`failed = 0 → 201`, `failed = total → 400`, `0 < failed < total → 207`;
at the materials endpoint the status is `201` when `failed = 0` and `207`
whenever `failed > 0` — total failure yields 207 there, never 400. -/
theorem bulk_status_law :
    (∀ (ps : List PRec) (o : ProdOracle) (found : List (String × Nat)) (d : BulkData),
      o.selectRes = Except.ok found →
      (validRecords PRec.sku ps).isEmpty = false →
      (runProducts ps o).1.data = some d →
      d.created + d.updated + d.failed = d.total →
      ((d.failed = 0 → (runProducts ps o).1.status = 201) ∧
       (d.failed = d.total → (runProducts ps o).1.status = 400) ∧
       (0 < d.failed → d.failed < d.total → (runProducts ps o).1.status = 207))) ∧
    (∀ (ms : List MRec) (o : MatOracle) (found : List (String × Nat)) (d : BulkData),
      o.selectRes = Except.ok found →
      (validRecords MRec.code ms).isEmpty = false →
      (runMaterials ms o).data = some d →
      (runMaterials ms o).status = if d.failed = 0 then 201 else 207) := by
  constructor
  · intro ps o found d hsel hv hd hsum
    obtain ⟨succ, upd, fa, hr⟩ := runProducts_reaches_finish ps o found hsel hv
    rw [hr] at hd ⊢
    obtain ⟨htot, hc, hu, hf, hst⟩ := finishProducts_data ps.length succ upd fa d hd
    rw [hst]
    have ht0 : 0 < d.total := htot ▸ length_pos_of_valid PRec.sku ps hv
    have hlaw := statusFor_law d.failed d.created d.updated d.total
      (by omega) ht0
    exact ⟨fun h => (hlaw.1 h), fun h => (hlaw.2.1 h), fun h1 h2 => (hlaw.2.2 h1 h2)⟩
  · intro ms o found d hsel hv hd
    obtain ⟨cN, uN, fa, hr⟩ := runMaterials_reaches_finish ms o found hsel hv
    rw [hr] at hd ⊢
    exact (finishMaterials_data ms.length cN uN fa d hd).2.2.2.2

/-- Concrete materials batch for the C1 counterexample and witnesses: one
record whose code exists in the store and whose individual update throws,
so every record fails. -/
def c1ms : List MRec := [⟨"M1", "Mat1"⟩]

/-- Oracle for `c1ms`: the lookup finds `M1`, the update throws. -/
def c1mo : MatOracle :=
  ⟨Except.ok [("M1", 7)], none, fun _ => UpdRes.err "disk full"⟩

/-- **C1 (counterexample).**  The claim says `failed == total` yields 400
at every bulk endpoint.  At the materials endpoint a batch of one record
whose single update fails ends with `failed = total = 1` yet HTTP 207. -/
theorem bulk_status_law_counterexample :
    (runMaterials c1ms c1mo).status = 207 ∧
    (runMaterials c1ms c1mo).data.map BulkData.failed = some 1 ∧
    (runMaterials c1ms c1mo).data.map BulkData.total = some 1 ∧
    (runMaterials c1ms c1mo).status ≠ 400 := by decide

/-- Concrete products batch for the C1 witness: one new record, all store
calls succeed, so `failed = 0` and the status is 201. -/
def w1ps : List PRec := [⟨"A", "ProdA", 5, 0⟩]

/-- Oracle for `w1ps`: nothing exists yet, the insert succeeds. -/
def w1po : ProdOracle :=
  ⟨Except.ok [], none, 100, fun _ => UpdRes.ok, Except.ok [], none⟩

/-- Witness for C1: the products law applied at `w1ps` (all-success, 201)
and the materials branch applied at `c1ms` (total failure, 207). -/
theorem bulk_status_law_witness :
    (runProducts w1ps w1po).1.status = 201 ∧ (runMaterials c1ms c1mo).status = 207 := by
  constructor
  · exact (bulk_status_law.1 w1ps w1po [] ⟨1, 1, 0, 0, []⟩ rfl (by decide)
      (by decide) (by decide)).1 rfl
  · have h := bulk_status_law.2 c1ms c1mo [("M1", 7)]
      ⟨1, 0, 0, 1, [⟨1, "M1", "Mat1", "UPDATE Error: disk full"⟩]⟩ rfl (by decide)
      (by decide)
    rw [h]
    decide

/-! ## C2 and C5: the insert-failure / transaction-catch paths -/

/-- Concrete products batch exercising the insert-failure path: a single
new record whose batched insert throws. -/
def c2ps : List PRec := [⟨"A", "ProdA", 5, 0⟩]

/-- Oracle for `c2ps`: nothing exists, the batched insert throws
`db down`; the rethrown `INSERT Error: db down` reaches the transaction
catch. -/
def c2po : ProdOracle :=
  ⟨Except.ok [], some "db down", 100, fun _ => UpdRes.ok, Except.ok [], none⟩

/-- **C2 (code bug).**  The claim says `created + updated + failed = N`
with each record counted once, even when an insert failure is followed by
a transaction-level failure.  On a batch of one new record whose batched
insert throws, the insert catch pushes the record to `failed` and the
transaction catch — which only checks `successful` and `updated`, not
`failed` — pushes it again: the response reports `failed = 2` for
`total = 1` (sum 2 ≠ 1), and the status selection then even answers 201
for a batch in which everything failed. -/
theorem bulk_outcome_double_count :
    (runProducts c2ps c2po).1.data.map BulkData.total = some 1 ∧
    (runProducts c2ps c2po).1.data.map BulkData.created = some 0 ∧
    (runProducts c2ps c2po).1.data.map BulkData.updated = some 0 ∧
    (runProducts c2ps c2po).1.data.map BulkData.failed = some 2 ∧
    (runProducts c2ps c2po).1.status = 201 ∧
    (runProducts c2ps c2po).1.success = false := by decide

/-- Concrete products batch for C5: a duplicated sku `A` ahead of the new
record `B`, and a failing batched insert. -/
def c5ps : List PRec := [⟨"A", "PA", 5, 0⟩, ⟨"A", "PA2", 5, 0⟩, ⟨"B", "PB", 5, 0⟩]

/-- **C5 (code bug).**  The claim says every `errors` entry carries
`original position + 1`, for every failure kind, even with duplicates
ahead of the failing record.  `B` sits at original position 2 (0-based),
so index fidelity demands the value 3; but the insert-failure path
computes the position with `validProducts.findIndex`, i.e. in the
duplicate-filtered array, and reports the entry `(index 2, B)`. -/
theorem bulk_error_index_misreport :
    ((⟨2, "B", "PB", "INSERT Error: db down"⟩ : ErrEntry)
      ∈ respErrors (runProducts c5ps c2po).1) ∧
    c5ps.length = 3 ∧
    (c5ps.get? 0).map PRec.sku = some "A" ∧
    (c5ps.get? 1).map PRec.sku = some "A" ∧
    (c5ps.get? 2).map PRec.sku = some "B" := by decide

/-! ## C3: failure of the bulk existence lookup -/

theorem runProducts_select_error (ps : List PRec) (o : ProdOracle) (e : String)
    (hsel : o.selectRes = Except.error e)
    (hv : (validRecords PRec.sku ps).isEmpty = false) :
    runProducts ps o = (selectErrRespP ps e, []) := by
  unfold runProducts
  rw [hv, hsel]
  rfl

/-- **C3 (amended).**  When the bulk existence lookup throws, every
surviving candidate is marked `Failed` with the lookup error message and
the body reports `failed = total` with zero creations and updates — but
the products handler answers HTTP **500**, not 400 (and the materials
handler, whose lookup runs inside the transaction, rejects the whole
transaction and answers a bare 500 without per-record errors). -/
theorem lookup_error_resolution :
    (∀ (ps : List PRec) (o : ProdOracle) (e : String),
      o.selectRes = Except.error e →
      (validRecords PRec.sku ps).isEmpty = false →
      (runProducts ps o).1.status = 500 ∧
      (runProducts ps o).1.data.map BulkData.failed = some ps.length ∧
      (runProducts ps o).1.data.map BulkData.total = some ps.length ∧
      (runProducts ps o).1.data.map BulkData.created = some 0 ∧
      (runProducts ps o).1.data.map BulkData.updated = some 0 ∧
      (∀ x ∈ validRecords PRec.sku ps,
        (⟨actualIndex PRec.sku ps x.2.sku + 1, x.2.sku, x.2.pname,
          "SELECT Error: " ++ e⟩ : ErrEntry) ∈ respErrors (runProducts ps o).1) ∧
      (∀ en ∈ respErrors (runProducts ps o).1,
        en.error = dupMsgP ∨ en.error = "SELECT Error: " ++ e)) ∧
    (∀ (ms : List MRec) (o : MatOracle) (e : String),
      o.selectRes = Except.error e →
      (validRecords MRec.code ms).isEmpty = false →
      runMaterials ms o = ⟨500, false, none⟩) := by
  constructor
  · intro ps o e hsel hv
    have h1 : (runProducts ps o).1 = selectErrRespP ps e := by
      rw [runProducts_select_error ps o e hsel hv]
    rw [h1]
    refine ⟨rfl, ?_, rfl, rfl, rfl, ?_, ?_⟩
    · have h2 : (selectErrRespP ps e).data.map BulkData.failed =
          some ((((dupRecords PRec.sku ps).map fun x => (x.1, x.2, dupMsgP)) ++
            ((validRecords PRec.sku ps).map fun x =>
              (actualIndex PRec.sku ps x.2.sku, x.2, "SELECT Error: " ++ e))).length) := rfl
      rw [h2, List.length_append, List.length_map, List.length_map]
      exact congrArg some (dup_valid_length PRec.sku ps)
    · intro x hx
      have h3 : respErrors (selectErrRespP ps e) =
          mkErrEntries PRec.sku PRec.pname
            (((dupRecords PRec.sku ps).map fun x => (x.1, x.2, dupMsgP)) ++
              ((validRecords PRec.sku ps).map fun x =>
                (actualIndex PRec.sku ps x.2.sku, x.2, "SELECT Error: " ++ e))) := rfl
      rw [h3]
      simp only [mkErrEntries]
      exact List.mem_map.mpr
        ⟨(actualIndex PRec.sku ps x.2.sku, x.2, "SELECT Error: " ++ e),
          List.mem_append_right _ (List.mem_map.mpr ⟨x, hx, rfl⟩), rfl⟩
    · intro en hen
      have h3 : respErrors (selectErrRespP ps e) =
          mkErrEntries PRec.sku PRec.pname
            (((dupRecords PRec.sku ps).map fun x => (x.1, x.2, dupMsgP)) ++
              ((validRecords PRec.sku ps).map fun x =>
                (actualIndex PRec.sku ps x.2.sku, x.2, "SELECT Error: " ++ e))) := rfl
      rw [h3] at hen
      simp only [mkErrEntries, List.mem_map] at hen
      obtain ⟨y, hy, rfl⟩ := hen
      rcases List.mem_append.mp hy with h | h
      · obtain ⟨z, hz, rfl⟩ := List.mem_map.mp h
        left
        rfl
      · obtain ⟨z, hz, rfl⟩ := List.mem_map.mp h
        right
        rfl
  · intro ms o e hsel hv
    unfold runMaterials
    rw [hv, hsel]
    rfl

/-- Concrete products batch and oracle for the C3 counterexample: one
record, and the existence lookup throws. -/
def c3ps : List PRec := [⟨"A", "PA", 5, 0⟩]

/-- Oracle for `c3ps`: the `whereIn('sku', ...)` select throws. -/
def c3po : ProdOracle :=
  ⟨Except.error "connection lost", none, 0, fun _ => UpdRes.ok, Except.ok [], none⟩

/-- **C3 (counterexample).**  The claim says a failing existence lookup
completes the batch with status 400 and never 500; the code answers 500
(with `failed = total` and the SELECT message in the body). -/
theorem lookup_error_counterexample :
    (runProducts c3ps c3po).1.status = 500 ∧
    (runProducts c3ps c3po).1.status ≠ 400 ∧
    (runProducts c3ps c3po).1.data.map BulkData.failed = some 1 ∧
    (runProducts c3ps c3po).1.data.map BulkData.total = some 1 ∧
    ((⟨1, "A", "PA", "SELECT Error: connection lost"⟩ : ErrEntry)
      ∈ respErrors (runProducts c3ps c3po).1) := by decide

/-- Concrete materials batch and oracle for the C3 witness. -/
def c3ms : List MRec := [⟨"M", "N"⟩]

/-- Oracle for `c3ms`: the in-transaction lookup throws. -/
def c3mo : MatOracle := ⟨Except.error "net down", none, fun _ => UpdRes.ok⟩

/-- Witness for C3 at one-record batches on both endpoints. -/
theorem lookup_error_resolution_witness :
    (runProducts c3ps c3po).1.status = 500 ∧
    runMaterials c3ms c3mo = ⟨500, false, none⟩ := by
  exact ⟨(lookup_error_resolution.1 c3ps c3po "connection lost" rfl (by decide)).1,
    lookup_error_resolution.2 c3ms c3mo "net down" rfl (by decide)⟩

/-! ## C6: individual update failures are isolated -/

theorem runUpdates_get? (nfMsg : String) (upds : List (Nat × α))
    (f : Nat → UpdRes) (j : Nat) :
    (runUpdates nfMsg upds f).get? j =
      (upds.get? j).map fun u => updOutcome nfMsg u.1 u.2 (f j) := by
  rw [runUpdates, List.get?_map, withIdx_get?]
  cases upds.get? j <;> simp

/-- **C6.**  In the update phase, every record of the update set receives
exactly one outcome (the outcome list is as long as the update set), the
outcome at position `j` depends only on the store's answer to update call
`j` — so one record's failure never aborts or alters a sibling's outcome —
and a thrown update marks exactly that record `Failed` with the update
error message. -/
theorem update_failures_isolated (nfMsg : String) (upds : List (Nat × α))
    (f g : Nat → UpdRes) (j : Nat) (h : f j = g j) :
    (runUpdates nfMsg upds f).length = upds.length ∧
    (runUpdates nfMsg upds f).get? j = (runUpdates nfMsg upds g).get? j ∧
    (∀ m, f j = UpdRes.err m →
      (runUpdates nfMsg upds f).get? j =
        (upds.get? j).map fun u =>
          UpdOutcome.failed u.1 u.2 ("UPDATE Error: " ++ m)) := by
  refine ⟨?_, ?_, ?_⟩
  · rw [runUpdates, List.length_map, withIdx_length]
  · rw [runUpdates_get?, runUpdates_get?, h]
  · intro m hm
    rw [runUpdates_get?, hm]
    cases upds.get? j <;> simp [updOutcome]

/-- Witness for C6: a one-record update set whose single update throws,
under two oracles that agree at that record. -/
theorem update_failures_isolated_witness :
    (runUpdates "missing" [((5 : Nat), "x")]
      (fun k => if k = 0 then UpdRes.err "boom" else UpdRes.ok)).length =
      [((5 : Nat), "x")].length ∧
    (runUpdates "missing" [((5 : Nat), "x")]
      (fun k => if k = 0 then UpdRes.err "boom" else UpdRes.ok)).get? 0 =
      (runUpdates "missing" [((5 : Nat), "x")] (fun _ => UpdRes.err "boom")).get? 0 ∧
    (∀ m, (fun k => if k = 0 then UpdRes.err "boom" else UpdRes.ok) 0 = UpdRes.err m →
      (runUpdates "missing" [((5 : Nat), "x")]
        (fun k => if k = 0 then UpdRes.err "boom" else UpdRes.ok)).get? 0 =
        ([((5 : Nat), "x")].get? 0).map fun u =>
          UpdOutcome.failed u.1 u.2 ("UPDATE Error: " ++ m)) :=
  update_failures_isolated "missing" [((5 : Nat), "x")] _ _ 0 rfl

/-! ## C7: no duplicate active alert within one invocation -/

theorem hasActive_iff_count_pos (st : List AlertRow) (pid : Nat) :
    hasActiveAlert st pid = true ↔ 0 < countActive st pid := by
  rw [hasActiveAlert, countActive]
  constructor
  · intro h
    obtain ⟨a, ha, hp⟩ := List.any_eq_true.mp h
    have hmem : a ∈ st.filter (isActiveLowStock pid) := List.mem_filter.mpr ⟨ha, hp⟩
    exact List.length_pos.mpr fun hnil => by simp [hnil] at hmem
  · intro h
    obtain ⟨a, ha⟩ := List.exists_mem_of_length_pos h
    obtain ⟨ha1, ha2⟩ := List.mem_filter.mp ha
    exact List.any_eq_true.mpr ⟨a, ha1, ha2⟩

theorem countActive_append (st : List AlertRow) (row : AlertRow) (pid : Nat) :
    countActive (st ++ [row]) pid =
      countActive st pid + if isActiveLowStock pid row then 1 else 0 := by
  rw [countActive, countActive, List.filter_append, List.length_append]
  cases hp : isActiveLowStock pid row <;> simp [hp]

theorem isActiveLowStock_self (pid : Nat) :
    isActiveLowStock pid ⟨"product", pid, "stock_low", true⟩ = true := by
  simp [isActiveLowStock]

theorem containsNat_iff (l : List Nat) (n : Nat) : l.contains n = true ↔ n ∈ l := by
  induction l with
  | nil => simp
  | cons a as ih => simp [List.contains_cons, ih, beq_iff_eq]

/-- **C7.**  Within one invocation of the alert logic, no alert row is
inserted for an entity that already carries an active alert of the same
(entity type, entity id, alert type): `generateStockAlert` leaves the
store untouched when an active alert exists; the bulk low-stock phase
only inserts ids that the active-alert lookup over the current store did
not return; and running the single-product deduplicator twice in sequence
(with successful inserts and no intervening resolution) leaves exactly
one active alert row for the pair. -/
theorem alert_nonduplication (st : List AlertRow) (pid : Nat) :
    (hasActiveAlert st pid = true → ∀ ok, generateStockAlert ok pid st = st) ∧
    (countActive st pid ≤ 1 →
      countActive (generateStockAlert true pid (generateStockAlert true pid st)) pid = 1) ∧
    (∀ (low : List LowStockEntry) (insErr : Option String) (i : Nat),
      i ∈ (alertPhase low
            (Except.ok (activeAlertIds st (low.filterMap fun e => e.pid))) insErr).2 →
      hasActiveAlert st i = false) := by
  refine ⟨?_, ?_, ?_⟩
  · intro hA ok
    simp [generateStockAlert, hA]
  · intro hc
    cases hA : hasActiveAlert st pid with
    | true =>
      have h1 : generateStockAlert true pid st = st := by simp [generateStockAlert, hA]
      rw [h1, h1]
      have hpos := (hasActive_iff_count_pos st pid).mp hA
      omega
    | false =>
      have h0 : countActive st pid = 0 := by
        rcases Nat.eq_zero_or_pos (countActive st pid) with h | h
        · exact h
        · exact absurd ((hasActive_iff_count_pos st pid).mpr h) (by simp [hA])
      have h1 : generateStockAlert true pid st =
          st ++ [⟨"product", pid, "stock_low", true⟩] := by
        simp [generateStockAlert, hA]
      have hA2 : hasActiveAlert (st ++ [⟨"product", pid, "stock_low", true⟩]) pid = true := by
        rw [hasActive_iff_count_pos, countActive_append, isActiveLowStock_self]
        simp
      have h2 : generateStockAlert true pid
          (st ++ [⟨"product", pid, "stock_low", true⟩]) =
          st ++ [⟨"product", pid, "stock_low", true⟩] := by
        simp [generateStockAlert, hA2]
      rw [h1, h2, countActive_append, isActiveLowStock_self, h0]
      simp
  · intro low insErr i hi
    cases hA : hasActiveAlert st i with
    | false => rfl
    | true =>
      exfalso
      simp only [alertPhase] at hi
      split at hi
      · simp at hi
      · split at hi
        · simp at hi
        · cases insErr with
          | some m => simp at hi
          | none =>
            simp only [] at hi
            obtain ⟨x, hxmem, hxi⟩ := List.mem_map.mp hi
            obtain ⟨hxw, hxc⟩ := List.mem_filter.mp hxmem
            obtain ⟨ee, hee, hfe⟩ := List.mem_filterMap.mp hxw
            obtain ⟨a, ha, hp⟩ := List.any_eq_true.mp hA
            simp only [isActiveLowStock, Bool.and_eq_true, beq_iff_eq] at hp
            obtain ⟨⟨⟨he1, he2⟩, he3⟩, he4⟩ := hp
            subst hxi
            have hidmem : x.1 ∈ low.filterMap fun e => e.pid := by
              cases hpid : ee.pid with
              | none =>
                rw [hpid] at hfe
                simp at hfe
              | some v =>
                rw [hpid] at hfe
                simp only [Option.some.injEq] at hfe
                have hv : v = x.1 := congrArg Prod.fst hfe
                exact List.mem_filterMap.mpr ⟨ee, hee, by rw [hpid, hv]⟩
            have hmem2 : a.eid ∈ low.filterMap fun e => e.pid := by
              rw [he2]
              exact hidmem
            have hcont := (containsNat_iff _ _).mpr hmem2
            have hamem : a ∈ st.filter fun a =>
                a.etype == "product" &&
                (low.filterMap fun e => e.pid).contains a.eid &&
                a.atype == "stock_low" && a.active := by
              refine List.mem_filter.mpr ⟨ha, ?_⟩
              simp only [Bool.and_eq_true, beq_iff_eq]
              exact ⟨⟨⟨he1, hcont⟩, he3⟩, he4⟩
            have hmem3 : a.eid ∈ activeAlertIds st (low.filterMap fun e => e.pid) :=
              List.mem_map.mpr ⟨a, hamem, rfl⟩
            rw [he2] at hmem3
            rw [(containsNat_iff _ _).mpr hmem3] at hxc
            simp at hxc

/-- Witness for C7: an existing active alert suppresses insertion; two
sequential invocations from an empty store leave exactly one row; a bulk
candidate inserted from an empty store had no active alert. -/
theorem alert_nonduplication_witness :
    (generateStockAlert true 0 [⟨"product", 0, "stock_low", true⟩] =
      [⟨"product", 0, "stock_low", true⟩]) ∧
    (countActive (generateStockAlert true 1 (generateStockAlert true 1 [])) 1 = 1) ∧
    (hasActiveAlert [] 3 = false) := by
  exact ⟨(alert_nonduplication [⟨"product", 0, "stock_low", true⟩] 0).1 (by decide) true,
    (alert_nonduplication [] 1).2.1 (by decide),
    (alert_nonduplication [] 3).2.2 [⟨some 3, ⟨"S", "N", 0, 0⟩⟩] none 3 (by decide)⟩

/-! ## C8: alert-creation failures are swallowed -/

theorem alertPhase_fst (low : List LowStockEntry) (sel : Except String (List Nat))
    (a b : Option String) : (alertPhase low sel a).1 = (alertPhase low sel b).1 := by
  unfold alertPhase
  set w := low.filterMap fun e =>
    match e.pid with
    | some i => some (i, e.item)
    | none => none with hwdef
  cases hwe : w.isEmpty with
  | true =>
    cases sel with
    | error e => simp [hwe]
    | ok ids => simp [hwe]
  | false =>
    cases sel with
    | error e => simp [hwe]
    | ok ids =>
      simp only [hwe, Bool.false_eq_true, if_false]
      cases hte : (List.filter (fun x => !ids.contains x.1) w).isEmpty with
      | true => simp [hte]
      | false =>
        simp only [hte, Bool.false_eq_true, if_false]
        cases a <;> cases b <;> rfl

theorem txCatch_congr (ps : List PRec) (t1 t2 : TxOut)
    (h1 : t1.successful = t2.successful) (h2 : t1.updated = t2.updated)
    (h3 : t1.txErr = t2.txErr) : txCatch ps t1 = txCatch ps t2 := by
  unfold txCatch
  rw [h1, h2, h3]

theorem txPhase_alert_independent (ps : List PRec) (o : ProdOracle)
    (found : List (String × Nat)) (e : Option String) :
    (txPhase ps { o with alertInsertErr := e } found).successful =
      (txPhase ps o found).successful ∧
    (txPhase ps { o with alertInsertErr := e } found).updated =
      (txPhase ps o found).updated ∧
    (txPhase ps { o with alertInsertErr := e } found).failedAdds =
      (txPhase ps o found).failedAdds ∧
    (txPhase ps { o with alertInsertErr := e } found).txErr =
      (txPhase ps o found).txErr := by
  rcases o with ⟨sel, ins, idb, upd, asel, ains⟩
  simp only [txPhase]
  cases ins with
  | some e0 =>
    cases h1 : (planProducts ps found).1.isEmpty with
    | false =>
      refine ⟨?_, ?_, ?_, ?_⟩ <;> simp only [h1]
    | true =>
      refine ⟨?_, ?_, ?_, ?_⟩ <;> simp only [h1]
      exact alertPhase_fst _ _ _ _
  | none =>
    cases h1 : (planProducts ps found).1.isEmpty with
    | false =>
      refine ⟨?_, ?_, ?_, ?_⟩ <;> simp only [h1]
      exact alertPhase_fst _ _ _ _
    | true =>
      refine ⟨?_, ?_, ?_, ?_⟩ <;> simp only [h1]
      exact alertPhase_fst _ _ _ _

/-- **C8.**  A failure of the low-stock alert insert is logged and
swallowed: the bulk response — status, success flag, counts and
per-record errors — is identical whatever the alert insert returned, and
`generateStockAlert` never does anything to the store beyond possibly
appending the one new alert row (in particular a failure inside it leaves
the store unchanged and propagates nothing). -/
theorem alert_failures_swallowed :
    (∀ (ps : List PRec) (o : ProdOracle) (e1 e2 : Option String),
      (runProducts ps { o with alertInsertErr := e1 }).1 =
      (runProducts ps { o with alertInsertErr := e2 }).1) ∧
    (∀ (ok : Bool) (pid : Nat) (st : List AlertRow),
      generateStockAlert ok pid st = st ∨
      generateStockAlert ok pid st = st ++ [⟨"product", pid, "stock_low", true⟩]) := by
  constructor
  · intro ps o e1 e2
    have key : ∀ e : Option String,
        (runProducts ps { o with alertInsertErr := e }).1 = (runProducts ps o).1 := by
      intro e
      unfold runProducts
      cases hv : (validRecords PRec.sku ps).isEmpty with
      | true => simp [hv]
      | false =>
        have hsel : ({ o with alertInsertErr := e }).selectRes = o.selectRes := rfl
        simp only [hv, Bool.false_eq_true, if_false, hsel]
        cases hs : o.selectRes with
        | error er => rfl
        | ok found =>
          obtain ⟨h1, h2, h3, h4⟩ := txPhase_alert_independent ps o found e
          rw [hs] at h1 h2 h3 h4
          dsimp only
          rw [h1, h2, h3, txCatch_congr ps _ _ h1 h2 h4]
    rw [key e1, key e2]
  · intro ok pid st
    unfold generateStockAlert
    split
    · left
      rfl
    · split
      · right
        rfl
      · left
        rfl

/-! ## C9: request-body shapes -/

/-- **C9 (amended).**  Only the materials bulk endpoint normalizes the
request body: it accepts a raw array, a JSON string that parses to an
array (or to an object wrapping one), and an object wrapping the array
under `materials` (preferred) or `data`, and rejects every other shape
with a 400 message.  The products bulk endpoint performs no wrapper
normalization: its validator receives the body as-is, so an
object-wrapped body is rejected with 400 and only a raw array (or a
string the validator itself converts to a JSON array) is accepted. -/
theorem bulk_body_normalization :
    (∀ xs : List MRec, normalizeMaterialsBody (Body.arr xs) = Except.ok xs) ∧
    (∀ xs : List MRec,
      normalizeMaterialsBody (Body.str (some (Body.arr xs))) = Except.ok xs) ∧
    (∀ (xs : List MRec) (ds : Option (List MRec)),
      normalizeMaterialsBody (Body.obj (some xs) ds) = Except.ok xs) ∧
    (∀ xs : List MRec,
      normalizeMaterialsBody (Body.obj none (some xs)) = Except.ok xs) ∧
    (∀ (xs : List MRec) (ds : Option (List MRec)),
      normalizeMaterialsBody (Body.str (some (Body.obj (some xs) ds))) = Except.ok xs) ∧
    (normalizeMaterialsBody (Body.str none : Body MRec) =
      Except.error "Error al parsear el cuerpo de la petición") ∧
    (∀ b : Option (Body MRec),
      normalizeMaterialsBody (Body.str (some (Body.str b))) =
        Except.error "El cuerpo de la petición debe ser un array de materiales") ∧
    (normalizeMaterialsBody (Body.obj none none : Body MRec) =
      Except.error "El cuerpo de la petición debe ser un array de materiales") ∧
    (normalizeMaterialsBody (Body.nul : Body MRec) =
      Except.error "El cuerpo de la petición debe ser un array de materiales") ∧
    (normalizeMaterialsBody (Body.other : Body MRec) =
      Except.error "El cuerpo de la petición debe ser un array de materiales") ∧
    (∀ xs : List PRec, productsBodyAccepted (Body.arr xs) = true) ∧
    (∀ xs : List PRec, productsBodyAccepted (Body.str (some (Body.arr xs))) = true) ∧
    (∀ ms ds : Option (List PRec), productsBodyAccepted (Body.obj ms ds) = false) ∧
    (productsBodyAccepted (Body.nul : Body PRec) = false) ∧
    (productsBodyAccepted (Body.other : Body PRec) = false) ∧
    (∀ ms ds : Option (List PRec),
      productsBodyAccepted (Body.str (some (Body.obj ms ds))) = false) := by
  refine ⟨fun xs => rfl, fun xs => rfl, fun xs ds => rfl, fun xs => rfl,
    fun xs ds => rfl, rfl, fun b => rfl, rfl, rfl, rfl,
    fun xs => rfl, fun xs => rfl, fun ms ds => rfl, rfl, rfl, fun ms ds => rfl⟩

/-- Concrete material and product records for the C9 counterexample. -/
def c9m : MRec := ⟨"M1", "Mat"⟩

/-- Concrete product record for the C9 counterexample. -/
def c9p : PRec := ⟨"S1", "Prod", 5, 0⟩

/-- **C9 (counterexample).**  The claim says every bulk endpoint accepts
an object wrapping the array under a known key.  The materials endpoint
does unwrap `{ data: [...] }`, but the products endpoint — which has no
normalization step — rejects the same shape with 400. -/
theorem bulk_body_shape_counterexample :
    normalizeMaterialsBody (Body.obj none (some [c9m])) = Except.ok [c9m] ∧
    productsBodyAccepted (Body.obj none (some [c9p])) = false := ⟨rfl, rfl⟩

/-! ## C10: stock-out operations never drive stock negative -/

/-- **C10.**  A stock operation of type `out` whose quantity exceeds the
product's current stock is rejected with HTTP 400 before any write: the
state — product rows, transaction rows and alerts — is returned
untouched, so a stock operation never drives `current_stock` below
zero. -/
theorem stock_out_insufficient (st : InvState) (pid : Nat) (qty : Rat)
    (alertOk : Bool) (p : ProductRow)
    (hp : findActive st.products pid = some p) (hq : p.stock < qty) :
    handleStockOperation st pid false qty alertOk = (400, st) := by
  unfold handleStockOperation
  rw [hp]
  have hneg : p.stock - qty < 0 := by linarith
  simp [hneg]

/-- Witness state for C10: one active product with stock 2. -/
def w10 : InvState :=
  ⟨[⟨1, "S", "N", 2, 0, 5, true⟩], [], []⟩

/-- Witness for C10: withdrawing 3 from a stock of 2 answers 400 and
leaves the state untouched. -/
theorem stock_out_insufficient_witness :
    handleStockOperation w10 1 false 3 true = (400, w10) :=
  stock_out_insufficient w10 1 3 true ⟨1, "S", "N", 2, 0, 5, true⟩ rfl (by norm_num)

end Nubestock
